import Mathlib

/-!
Verification of the hrcrm backend (src/backend/app.py) against its
natural-language specification.

The program is a small HTTP backend with two resources (vacancies and
candidates) stored in a relational database.  We embed it shallowly:

* the two ORM record types `Vacancy` and `Candidate` become structures;
* the database contents become an explicit `DBState` (row lists in
  insertion order plus the primary-key counters of the storage layer);
* the pydantic request schemas `VacancyCreate` / `CandidateCreate` become
  structures, with an explicit raw-payload type distinguishing an omitted
  JSON field from an explicit `null` (pydantic applies field defaults only
  to omitted fields); the `vacancies.status` column is non-null with
  column default "open", and SQLAlchemy omits a `None`-valued attribute
  from the INSERT so that default fires, which the embedded insert
  resolves explicitly;
* the five request handlers become pure state-passing functions;
* the per-request session lifecycle of `get_db` (a generator with
  `try`/`finally`) becomes an explicit setup/teardown pair over a session
  record carrying a `closed` flag.
-/

namespace Hrcrm

/-- An HTTP error raised by a handler, mirroring `fastapi.HTTPException`
with its `status_code` and `detail` fields. -/
structure HTTPError where
  status_code : Nat
  detail : String
deriving Repr, DecidableEq

/-- ORM model `Vacancy` (table `vacancies`): `id` primary key, `title`
non-null text, `description` nullable text, `status` non-null text with
column default "open" (`Column(String, nullable=False, default="open")`).
This models the stored row, so `status` is a plain `String`: when the
handler constructs the ORM object with `status=None`, SQLAlchemy omits
the `None`-valued attribute from the INSERT and the column default fires,
so the row never holds a null status. -/
structure Vacancy where
  id : Nat
  title : String
  description : Option String
  status : String
deriving Repr, DecidableEq

/-- ORM model `Candidate` (table `candidates`): `id` primary key,
`full_name` and `email` non-null text (`email` unique), `phone` and
`city` nullable text. -/
structure Candidate where
  id : Nat
  full_name : String
  email : String
  phone : Option String
  city : Option String
deriving Repr, DecidableEq

/-- The database contents: the rows of the two tables in insertion order,
plus the next primary-key value each table's id sequence will issue. -/
structure DBState where
  vacancies : List Vacancy
  candidates : List Candidate
  nextVacancyId : Nat
  nextCandidateId : Nat
deriving Repr, DecidableEq

/-- A freshly initialised database: both tables empty, id sequences at 1. -/
def emptyDB : DBState :=
  { vacancies := [], candidates := [], nextVacancyId := 1, nextCandidateId := 1 }

/-- Raw JSON body of `POST /vacancies` (with a present `title`, which the
framework requires before the handler runs).  For the optional fields,
`none` means the key was omitted and `some v` means the key was present
with value `v` (where `v = none` is an explicit JSON `null`). -/
structure VacancyPayload where
  title : String
  description : Option (Option String)
  status : Option (Option String)
deriving Repr, DecidableEq

/-- Pydantic schema `VacancyCreate`: `title: str`,
`description: Optional[str] = None`, `status: Optional[str] = "open"`. -/
structure VacancyCreate where
  title : String
  description : Option String
  status : Option String
deriving Repr, DecidableEq

/-- Pydantic validation of a `POST /vacancies` body: field defaults apply
only when the key is omitted; an explicit `null` yields `None`. -/
def VacancyCreate.parse (p : VacancyPayload) : VacancyCreate :=
  { title := p.title
    description := match p.description with
      | none => none
      | some v => v
    status := match p.status with
      | none => some "open"
      | some v => v }

/-- Pydantic schema `CandidateCreate`: `full_name: str`, `email: str`,
`phone: Optional[str] = None`, `city: Optional[str] = None`. -/
structure CandidateCreate where
  full_name : String
  email : String
  phone : Option String
  city : Option String
deriving Repr, DecidableEq

/-- Handler `health`: `return {"status": "ok"}`.  It takes no arguments
and touches no storage, so it is a constant. -/
def health : List (String × String) := [("status", "ok")]

/-- Default value of the `skip` query parameter. -/
def DEFAULT_SKIP : Nat := 0

/-- Default value of the `limit` query parameter. -/
def DEFAULT_LIMIT : Nat := 100

/-- Handler `list_vacancies`:
`db.query(Vacancy).offset(skip).limit(limit).all()` — the stored rows in
storage order, skipping the first `skip` and returning at most `limit`. -/
def list_vacancies (db : DBState) (skip limit : Nat) : List Vacancy :=
  (db.vacancies.drop skip).take limit

/-- `list_vacancies` with both query parameters at their defaults. -/
def list_vacancies_default (db : DBState) : List Vacancy :=
  list_vacancies db DEFAULT_SKIP DEFAULT_LIMIT

/-- Handler `list_candidates`:
`db.query(Candidate).offset(skip).limit(limit).all()`. -/
def list_candidates (db : DBState) (skip limit : Nat) : List Candidate :=
  (db.candidates.drop skip).take limit

/-- `list_candidates` with both query parameters at their defaults. -/
def list_candidates_default (db : DBState) : List Candidate :=
  list_candidates db DEFAULT_SKIP DEFAULT_LIMIT

/-- Handler `create_vacancy`: builds `Vacancy(**vacancy.dict())` — the
schema's fields, `status` included, are passed through unchanged to the
record constructor — then `db.add`, `db.commit`, `db.refresh`, and
returns the row.  At commit, the id sequence assigns the identifier and,
when the `status` attribute was set to `None`, SQLAlchemy omits it from
the INSERT so the column default "open" fires; `db.refresh` reloads the
stored row, so the returned row carries the resolved status
`vacancy.status.getD "open"`. -/
def create_vacancy (vacancy : VacancyCreate) (db : DBState) :
    Vacancy × DBState :=
  let db_vacancy : Vacancy :=
    { id := db.nextVacancyId
      title := vacancy.title
      description := vacancy.description
      status := vacancy.status.getD "open" }
  (db_vacancy,
    { db with
        vacancies := db.vacancies ++ [db_vacancy]
        nextVacancyId := db.nextVacancyId + 1 })

/-- Handler `create_candidate`: first
`db.query(Candidate).filter(Candidate.email == candidate.email).first()`;
if a row is found it raises `HTTPException(400, "Candidate with this email
already exists")` without touching the store, otherwise it inserts
`Candidate(**candidate.dict())` with a sequence-assigned id and returns
the row. -/
def create_candidate (candidate : CandidateCreate) (db : DBState) :
    Except HTTPError Candidate × DBState :=
  match db.candidates.find? (fun c => c.email == candidate.email) with
  | some _ =>
      (Except.error ⟨400, "Candidate with this email already exists"⟩, db)
  | none =>
      let db_candidate : Candidate :=
        { id := db.nextCandidateId
          full_name := candidate.full_name
          email := candidate.email
          phone := candidate.phone
          city := candidate.city }
      (Except.ok db_candidate,
        { db with
            candidates := db.candidates ++ [db_candidate]
            nextCandidateId := db.nextCandidateId + 1 })

/-- One request to any of the five endpoints. -/
inductive Request where
  | health
  | listVacancies (skip limit : Nat)
  | createVacancy (p : VacancyCreate)
  | listCandidates (skip limit : Nat)
  | createCandidate (p : CandidateCreate)
deriving Repr, DecidableEq

/-- A response from one of the five endpoints. -/
inductive Response where
  | healthOk (payload : List (String × String))
  | vacancyList (vs : List Vacancy)
  | vacancyOne (v : Vacancy)
  | candidateList (cs : List Candidate)
  | candidateOne (c : Candidate)
  | failure (e : HTTPError)
deriving Repr, DecidableEq

/-- Dispatch of a request to its handler, returning the response together
with the database state after handling. -/
def handle : Request → DBState → Response × DBState
  | Request.health, db => (Response.healthOk health, db)
  | Request.listVacancies skip limit, db =>
      (Response.vacancyList (list_vacancies db skip limit), db)
  | Request.createVacancy p, db =>
      let r := create_vacancy p db
      (Response.vacancyOne r.1, r.2)
  | Request.listCandidates skip limit, db =>
      (Response.candidateList (list_candidates db skip limit), db)
  | Request.createCandidate p, db =>
      match create_candidate p db with
      | (Except.ok c, db') => (Response.candidateOne c, db')
      | (Except.error e, db') => (Response.failure e, db')

/-- The storage-layer invariant on candidates: every email is unique
across all stored candidates (the `unique=True` constraint on
`Candidate.email`). -/
def emailsUnique (cs : List Candidate) : Prop :=
  cs.Pairwise (fun a b => a.email ≠ b.email)

/-- Well-formedness of the id sequences: every stored row's id is a
positive integer already issued, i.e. strictly below the sequence's next
value, and the sequences start at 1. -/
def DBState.wf (db : DBState) : Prop :=
  (∀ v ∈ db.vacancies, 1 ≤ v.id ∧ v.id < db.nextVacancyId) ∧
  (∀ c ∈ db.candidates, 1 ≤ c.id ∧ c.id < db.nextCandidateId) ∧
  1 ≤ db.nextVacancyId ∧ 1 ≤ db.nextCandidateId

/-! ### Session lifecycle (`get_db`) -/

/-- A database session checked out from the session factory, with a flag
recording whether `close()` has been called on it. -/
structure DbSession where
  sid : Nat
  closed : Bool
deriving Repr, DecidableEq

/-- `SessionLocal()`: a fresh session, not yet closed. -/
def SessionLocal (sid : Nat) : DbSession := { sid := sid, closed := false }

/-- `db.close()`. -/
def DbSession.close (s : DbSession) : DbSession := { s with closed := true }

/-- The setup half of the `get_db` generator: create the session that is
yielded to the handler. -/
def get_db_setup (sid : Nat) : DbSession := SessionLocal sid

/-- The teardown half of the `get_db` generator: the `finally` clause,
which closes the session; it runs whether the handler returned normally
or raised. -/
def get_db_teardown (s : DbSession) : DbSession := s.close

/-- One handler invocation under the `get_db` dependency: a fresh session
is created for this request, the handler body runs on it (returning a
value or raising an `HTTPError`), and then the generator's `finally`
clause closes the session.  Returns the outcome and the final session. -/
def run_request {α : Type} (sid : Nat)
    (handler : DbSession → Except HTTPError α) :
    Except HTTPError α × DbSession :=
  let db := get_db_setup sid
  let result := handler db
  (result, get_db_teardown db)

/-! ### Schema creation (`Base.metadata.create_all`) -/

/-- A database server state: the set of existing table names together
with the rows of the two application tables. -/
structure ServerDB where
  tables : List String
  vacancyRows : List Vacancy
  candidateRows : List Candidate
deriving Repr, DecidableEq

/-- Create one table if it is absent, leaving the list unchanged if a
table of that name already exists. -/
def ensureTable (t : String) (ts : List String) : List String :=
  if t ∈ ts then ts else ts ++ [t]

/-- Modelled from the spec: `Base.metadata.create_all(bind=engine)` is
SQLAlchemy library code whose body is not part of this repository; per
the spec it "ensures both tables exist (idempotent create-if-absent)"
and never touches existing data.  It creates each of the two mapped
tables (`vacancies`, `candidates`) exactly when absent and leaves all
rows unchanged. -/
def create_all (d : ServerDB) : ServerDB :=
  ⟨ensureTable "candidates" (ensureTable "vacancies" d.tables),
    d.vacancyRows, d.candidateRows⟩

/-! ### Helper lemmas -/

theorem ensureTable_mem_self (t : String) (ts : List String) :
    t ∈ ensureTable t ts := by
  unfold ensureTable
  by_cases h : t ∈ ts
  · simp only [if_pos h]
    exact h
  · simp [h]

theorem ensureTable_mem_mono (t u : String) (ts : List String)
    (h : u ∈ ts) : u ∈ ensureTable t ts := by
  unfold ensureTable
  by_cases ht : t ∈ ts
  · simpa [ht]
  · simp [ht, h]

theorem ensureTable_eq_of_mem (t : String) (ts : List String)
    (h : t ∈ ts) : ensureTable t ts = ts := by
  simp [ensureTable, h]

theorem create_candidate_duplicate (db : DBState) (p : CandidateCreate)
    (h : ∃ c ∈ db.candidates, c.email = p.email) :
    create_candidate p db =
      (Except.error ⟨400, "Candidate with this email already exists"⟩, db) := by
  obtain ⟨c, hc, he⟩ := h
  cases hf : db.candidates.find? (fun x => x.email == p.email) with
  | none =>
      rw [List.find?_eq_none] at hf
      exact absurd (by simp [he]) (hf c hc)
  | some x =>
      simp [create_candidate, hf]

theorem create_candidate_no_duplicate (db : DBState) (p : CandidateCreate)
    (h : ∀ c ∈ db.candidates, c.email ≠ p.email) :
    create_candidate p db =
      (Except.ok ⟨db.nextCandidateId, p.full_name, p.email, p.phone, p.city⟩,
        { db with
            candidates := db.candidates ++
              [⟨db.nextCandidateId, p.full_name, p.email, p.phone, p.city⟩]
            nextCandidateId := db.nextCandidateId + 1 }) := by
  have hf : db.candidates.find? (fun x => x.email == p.email) = none := by
    rw [List.find?_eq_none]
    intro x hx
    simpa using h x hx
  simp [create_candidate, hf]

/-! ### Concrete fixtures used by the witness theorems -/

/-- A stored candidate used in witnesses. -/
def cAlice : Candidate := ⟨1, "Alice White", "alice@example.com", none, none⟩

/-- A database holding exactly the candidate `cAlice`. -/
def dbOneCandidate : DBState := ⟨[], [cAlice], 1, 2⟩

/-- A request body reusing `cAlice`'s email. -/
def pDupEmail : CandidateCreate :=
  ⟨"Bob Gray", "alice@example.com", some "555-0100", none⟩

/-- A request body with an email not stored in `dbOneCandidate`. -/
def pFreshEmail : CandidateCreate :=
  ⟨"Carol Reed", "carol@example.com", none, some "Berlin"⟩

/-- A vacancy payload that omits both optional keys. -/
def pVacOmitted : VacancyPayload := ⟨"HR Manager", none, none⟩

/-- Two vacancy request schemas used in witnesses. -/
def pVac1 : VacancyCreate := ⟨"HR Manager", none, some "open"⟩

def pVac2 : VacancyCreate := ⟨"Recruiter", some "senior", some "closed"⟩

/-- The database obtained by creating `pVac1` then `pVac2` on `emptyDB`. -/
def dbTwoVacancies : DBState :=
  (create_vacancy pVac2 (create_vacancy pVac1 emptyDB).2).2

/-! ### Claim theorems -/

/-- C6: the `health` handler returns the fixed payload associating
"status" with "ok"; it takes no input and reads no storage, and a health
request leaves every database state unchanged. -/
theorem health_fixed_payload :
    health = [("status", "ok")] ∧
    ∀ db : DBState,
      handle Request.health db = (Response.healthOk [("status", "ok")], db) :=
  ⟨rfl, fun _ => rfl⟩

/-- C8: schema creation at startup is idempotent: running `create_all`
twice equals running it once, it never alters the stored rows, and on a
state where both tables already exist it is the identity (in particular
it has no error outcome: it is a total function). -/
theorem create_all_idempotent (d : ServerDB) :
    create_all (create_all d) = create_all d ∧
    (create_all d).vacancyRows = d.vacancyRows ∧
    (create_all d).candidateRows = d.candidateRows ∧
    ("vacancies" ∈ d.tables → "candidates" ∈ d.tables → create_all d = d) := by
  refine ⟨?_, rfl, rfl, ?_⟩
  · unfold create_all
    congr 1
    rw [ensureTable_eq_of_mem "vacancies" _
      (ensureTable_mem_mono "candidates" "vacancies" _
        (ensureTable_mem_self "vacancies" d.tables))]
    exact ensureTable_eq_of_mem "candidates" _
      (ensureTable_mem_self "candidates" _)
  · intro hv hc
    unfold create_all
    rw [ensureTable_eq_of_mem "vacancies" _ hv,
      ensureTable_eq_of_mem "candidates" _ hc]

/-- Witness for C8 at a concrete server state whose two tables exist. -/
theorem create_all_idempotent_witness :
    create_all (create_all ⟨["vacancies", "candidates"], [], []⟩) =
      create_all ⟨["vacancies", "candidates"], [], []⟩ ∧
    create_all ⟨["vacancies", "candidates"], [], []⟩ =
      ⟨["vacancies", "candidates"], [], []⟩ :=
  ⟨(create_all_idempotent _).1,
    (create_all_idempotent _).2.2.2 (by simp) (by simp)⟩

/-- C9: for every handler body and every outcome (a returned value or a
raised `HTTPError`), the session acquired by `get_db` for the request is
closed when the invocation ends; the session is freshly created for this
request (it starts out not closed and carries the request's fresh id), and
the handler's outcome is passed through unchanged. -/
theorem session_released_after_request (α : Type) (sid : Nat)
    (handler : DbSession → Except HTTPError α) :
    (run_request sid handler).2.closed = true ∧
    (run_request sid handler).2.sid = sid ∧
    (get_db_setup sid).closed = false ∧
    (run_request sid handler).1 = handler (get_db_setup sid) :=
  ⟨rfl, rfl, rfl, rfl⟩

/-- Counterexample to C10 as stated: for the concrete payload supplying
`status` explicitly as JSON `null`, the schema's status is indeed `None`
(pass-through, no pydantic default), yet the stored and returned status
IS defaulted to "open": SQLAlchemy omits the `None`-valued attribute
from the INSERT and the column default of `Vacancy.status` fires. -/
theorem explicit_null_status_counterexample :
    (VacancyCreate.parse ⟨"HR Manager", none, some none⟩).status = none ∧
    (create_vacancy (VacancyCreate.parse ⟨"HR Manager", none, some none⟩)
      emptyDB).1.status = "open" ∧
    (create_vacancy (VacancyCreate.parse ⟨"HR Manager", none, some none⟩)
      emptyDB).2.vacancies.getLast? =
      some (create_vacancy (VacancyCreate.parse ⟨"HR Manager", none, some none⟩)
        emptyDB).1 := by
  refine ⟨rfl, rfl, ?_⟩
  simp [create_vacancy, List.getLast?_concat]

/-- C10 (amended): a payload that supplies `status` explicitly as JSON
`null` parses to a schema whose `status` is `None`, and the handler
passes that `None` through to the record constructor without
substituting "open"; however, since SQLAlchemy omits a `None`-valued
attribute from the INSERT, the column default of `Vacancy.status` fires
and the stored/returned status is "open" for an explicit null exactly as
for an omitted key, while an explicit string status is stored as given. -/
theorem explicit_null_status_defaulted_by_column (db : DBState)
    (title : String) (desc : Option (Option String)) :
    (VacancyCreate.parse ⟨title, desc, some none⟩).status = none ∧
    (create_vacancy (VacancyCreate.parse ⟨title, desc, some none⟩) db).1.status
      = "open" ∧
    (create_vacancy (VacancyCreate.parse ⟨title, desc, some none⟩) db).2.vacancies.getLast?
      = some (create_vacancy (VacancyCreate.parse ⟨title, desc, some none⟩) db).1 ∧
    (create_vacancy (VacancyCreate.parse ⟨title, desc, none⟩) db).1.status
      = "open" ∧
    ∀ s : String,
      (create_vacancy (VacancyCreate.parse ⟨title, desc, some (some s)⟩)
        db).1.status = s := by
  refine ⟨rfl, rfl, ?_, rfl, fun s => rfl⟩
  simp [create_vacancy, List.getLast?_concat]

/-- C1: whenever some stored candidate already has the payload's email,
`create_candidate` fails with the client error 400 "Candidate with this
email already exists" and returns the store unchanged (so no insert
happens and the candidate count is unchanged). -/
theorem duplicate_email_rejected (db : DBState) (p : CandidateCreate)
    (h : ∃ c ∈ db.candidates, c.email = p.email) :
    handle (Request.createCandidate p) db =
      (Response.failure ⟨400, "Candidate with this email already exists"⟩,
        db) := by
  have hd := create_candidate_duplicate db p h
  simp [handle, hd]

/-- Witness for C1: a concrete store holding Alice and a payload reusing
her email. -/
theorem duplicate_email_rejected_witness :
    handle (Request.createCandidate pDupEmail) dbOneCandidate =
      (Response.failure ⟨400, "Candidate with this email already exists"⟩,
        dbOneCandidate) :=
  duplicate_email_rejected dbOneCandidate pDupEmail
    ⟨cAlice, by simp [dbOneCandidate], rfl⟩

/-- C2: every operation preserves uniqueness of candidate emails: if the
invariant holds on the state before any of the five requests, it holds
after; and an insert that would violate it is rejected with the conflict
error. -/
theorem email_uniqueness_preserved (r : Request) (db : DBState)
    (h : emailsUnique db.candidates) :
    emailsUnique (handle r db).2.candidates ∧
    ∀ p : CandidateCreate, (∃ c ∈ db.candidates, c.email = p.email) →
      (handle (Request.createCandidate p) db).1 =
        Response.failure ⟨400, "Candidate with this email already exists"⟩ := by
  constructor
  · cases r with
    | health => exact h
    | listVacancies skip limit => exact h
    | listCandidates skip limit => exact h
    | createVacancy p => exact h
    | createCandidate p =>
        cases hf : db.candidates.find? (fun x => x.email == p.email) with
        | some x =>
            simpa [handle, create_candidate, hf] using h
        | none =>
            rw [List.find?_eq_none] at hf
            have hne : ∀ a ∈ db.candidates, a.email ≠ p.email := by
              intro a ha
              simpa using hf a ha
            have hs := create_candidate_no_duplicate db p hne
            simp only [handle, hs]
            unfold emailsUnique
            rw [List.pairwise_append]
            refine ⟨h, by simp, ?_⟩
            intro a ha b hb
            have hb' : b = ⟨db.nextCandidateId, p.full_name, p.email,
                p.phone, p.city⟩ := by simpa using hb
            rw [hb']
            exact hne a ha
  · intro p hp
    have hd := create_candidate_duplicate db p hp
    simp [handle, hd]

/-- Witness for C2: the invariant holds on a one-candidate store, is
preserved by a health request, and a duplicate insert is rejected. -/
theorem email_uniqueness_preserved_witness :
    emailsUnique (handle Request.health dbOneCandidate).2.candidates ∧
    (handle (Request.createCandidate pDupEmail) dbOneCandidate).1 =
      Response.failure ⟨400, "Candidate with this email already exists"⟩ :=
  ⟨(email_uniqueness_preserved Request.health dbOneCandidate
      (by simp [emailsUnique, dbOneCandidate])).1,
    (email_uniqueness_preserved Request.health dbOneCandidate
      (by simp [emailsUnique, dbOneCandidate])).2 pDupEmail
      ⟨cAlice, by simp [dbOneCandidate], rfl⟩⟩

/-- C3: for every valid vacancy payload (a present title), on a
well-formed state `create_vacancy` returns a record whose id is a
positive integer different from every previously issued vacancy id,
inserts exactly that record, echoes the payload's title, defaults the
status to "open" when the payload omits it, and preserves
well-formedness. -/
theorem create_vacancy_correct (p : VacancyPayload) (db : DBState)
    (h : db.wf) :
    1 ≤ (create_vacancy (VacancyCreate.parse p) db).1.id ∧
    (∀ v ∈ db.vacancies,
      v.id ≠ (create_vacancy (VacancyCreate.parse p) db).1.id) ∧
    (create_vacancy (VacancyCreate.parse p) db).2.vacancies =
      db.vacancies ++ [(create_vacancy (VacancyCreate.parse p) db).1] ∧
    (create_vacancy (VacancyCreate.parse p) db).1.title = p.title ∧
    (p.status = none →
      (create_vacancy (VacancyCreate.parse p) db).1.status = "open") ∧
    (create_vacancy (VacancyCreate.parse p) db).2.wf := by
  obtain ⟨hv, hc, hnv, hnc⟩ := h
  refine ⟨hnv, ?_, rfl, rfl, ?_, ?_, ?_, ?_, ?_⟩
  · intro v hmem
    exact Nat.ne_of_lt (hv v hmem).2
  · intro hs
    simp [create_vacancy, VacancyCreate.parse, hs]
  · intro v hmem
    rcases List.mem_append.mp hmem with hold | hnew
    · exact ⟨(hv v hold).1, Nat.lt_succ_of_lt (hv v hold).2⟩
    · have : v = (create_vacancy (VacancyCreate.parse p) db).1 := by
        simpa using hnew
      rw [this]
      exact ⟨hnv, Nat.lt_succ_self _⟩
  · exact hc
  · exact Nat.le_succ_of_le hnv
  · exact hnc

/-- Witness for C3 on the freshly initialised database and a payload
omitting the status key. -/
theorem create_vacancy_correct_witness :
    1 ≤ (create_vacancy (VacancyCreate.parse pVacOmitted) emptyDB).1.id ∧
    (create_vacancy (VacancyCreate.parse pVacOmitted) emptyDB).1.status =
      "open" ∧
    (create_vacancy (VacancyCreate.parse pVacOmitted) emptyDB).2.vacancies =
      emptyDB.vacancies ++
        [(create_vacancy (VacancyCreate.parse pVacOmitted) emptyDB).1] :=
  ⟨(create_vacancy_correct pVacOmitted emptyDB
      (by simp [DBState.wf, emptyDB])).1,
    (create_vacancy_correct pVacOmitted emptyDB
      (by simp [DBState.wf, emptyDB])).2.2.2.2.1 rfl,
    (create_vacancy_correct pVacOmitted emptyDB
      (by simp [DBState.wf, emptyDB])).2.2.1⟩

/-- C4: for every candidate payload whose email is absent from storage,
`create_candidate` succeeds, returning the full record with the
sequence-assigned id, and a subsequent `list_candidates` whose skip/limit
window covers the whole store includes that record. -/
theorem create_candidate_fresh_email (p : CandidateCreate) (db : DBState)
    (h : ∀ c ∈ db.candidates, c.email ≠ p.email) :
    (create_candidate p db).1 =
      Except.ok ⟨db.nextCandidateId, p.full_name, p.email, p.phone, p.city⟩ ∧
    ∀ limit : Nat, (create_candidate p db).2.candidates.length ≤ limit →
      (⟨db.nextCandidateId, p.full_name, p.email, p.phone, p.city⟩ :
          Candidate) ∈
        list_candidates (create_candidate p db).2 0 limit := by
  have hs := create_candidate_no_duplicate db p h
  constructor
  · rw [hs]
  · intro limit hlim
    rw [hs] at hlim ⊢
    unfold list_candidates
    rw [List.drop_zero, List.take_of_length_le hlim]
    simp

/-- Witness for C4: inserting a fresh email into the one-candidate store
succeeds and the new record shows up in a full listing (default limit). -/
theorem create_candidate_fresh_email_witness :
    (create_candidate pFreshEmail dbOneCandidate).1 =
      Except.ok ⟨2, "Carol Reed", "carol@example.com", none, some "Berlin"⟩ ∧
    (⟨2, "Carol Reed", "carol@example.com", none, some "Berlin"⟩ :
        Candidate) ∈
      list_candidates (create_candidate pFreshEmail dbOneCandidate).2 0 100 :=
  ⟨(create_candidate_fresh_email pFreshEmail dbOneCandidate
      (by simp [dbOneCandidate, cAlice, pFreshEmail])).1,
    (create_candidate_fresh_email pFreshEmail dbOneCandidate
      (by simp [dbOneCandidate, cAlice, pFreshEmail])).2 100 (by decide)⟩

/-- C5: `list_vacancies` returns up to `limit` records starting at offset
`skip` of the stored sequence (the length is `min limit (length - skip)`
and entry `i` of the page is entry `skip + i` of the store), the query
parameters default to `skip = 0` and `limit = 100`, and after exactly two
vacancies have been created `list_vacancies` with `skip = 0, limit = 1`
returns exactly one record. -/
theorem list_vacancies_spec (db : DBState) (skip limit : Nat) :
    (list_vacancies db skip limit).length =
      min limit (db.vacancies.length - skip) ∧
    (∀ i : Nat, i < limit →
      (list_vacancies db skip limit)[i]? = db.vacancies[skip + i]?) ∧
    list_vacancies_default db = list_vacancies db 0 100 ∧
    ∀ p1 p2 : VacancyCreate,
      (list_vacancies (create_vacancy p2 (create_vacancy p1 emptyDB).2).2
          0 1).length = 1 := by
  refine ⟨by simp [list_vacancies], ?_, rfl, ?_⟩
  · intro i hi
    unfold list_vacancies
    rw [List.getElem?_take_of_lt hi, List.getElem?_drop]
  · intro p1 p2
    simp [list_vacancies, create_vacancy, emptyDB]

/-- Witness for C5 on the two-vacancy database with `skip = 0`,
`limit = 1`. -/
theorem list_vacancies_spec_witness :
    (list_vacancies dbTwoVacancies 0 1).length =
      min 1 (dbTwoVacancies.vacancies.length - 0) ∧
    (list_vacancies dbTwoVacancies 0 1)[0]? =
      dbTwoVacancies.vacancies[0 + 0]? ∧
    (list_vacancies (create_vacancy pVac2 (create_vacancy pVac1 emptyDB).2).2
        0 1).length = 1 :=
  ⟨(list_vacancies_spec dbTwoVacancies 0 1).1,
    (list_vacancies_spec dbTwoVacancies 0 1).2.1 0 (by decide),
    (list_vacancies_spec dbTwoVacancies 0 1).2.2.2 pVac1 pVac2⟩

/-- C7: no operation updates or deletes an existing record: after any of
the five requests the old vacancy and candidate rows are still stored,
in order, with every field (the id included) unchanged — the new store is
the old store plus a possibly empty suffix of new rows — and the two list
endpoints and the health endpoint leave the state entirely unchanged. -/
theorem records_never_updated_or_deleted (r : Request) (db : DBState) :
    (∃ tv : List Vacancy,
      (handle r db).2.vacancies = db.vacancies ++ tv) ∧
    (∃ tc : List Candidate,
      (handle r db).2.candidates = db.candidates ++ tc) ∧
    (∀ skip limit : Nat,
      (handle (Request.listVacancies skip limit) db).2 = db) ∧
    (∀ skip limit : Nat,
      (handle (Request.listCandidates skip limit) db).2 = db) ∧
    (handle Request.health db).2 = db := by
  refine ⟨?_, ?_, fun _ _ => rfl, fun _ _ => rfl, rfl⟩
  · cases r with
    | health => exact ⟨[], by simp [handle]⟩
    | listVacancies skip limit => exact ⟨[], by simp [handle]⟩
    | listCandidates skip limit => exact ⟨[], by simp [handle]⟩
    | createVacancy p =>
        exact ⟨[(create_vacancy p db).1], rfl⟩
    | createCandidate p =>
        cases hf : db.candidates.find? (fun x => x.email == p.email) with
        | some x => exact ⟨[], by simp [handle, create_candidate, hf]⟩
        | none => exact ⟨[], by simp [handle, create_candidate, hf]⟩
  · cases r with
    | health => exact ⟨[], by simp [handle]⟩
    | listVacancies skip limit => exact ⟨[], by simp [handle]⟩
    | listCandidates skip limit => exact ⟨[], by simp [handle]⟩
    | createVacancy p => exact ⟨[], by simp [handle, create_vacancy]⟩
    | createCandidate p =>
        cases hf : db.candidates.find? (fun x => x.email == p.email) with
        | some x => exact ⟨[], by simp [handle, create_candidate, hf]⟩
        | none =>
            exact ⟨[⟨db.nextCandidateId, p.full_name, p.email, p.phone,
                p.city⟩], by simp [handle, create_candidate, hf]⟩

end Hrcrm
